import Mathlib

/-!
Shallow embedding of qutebrowser keyinput keyparser.py: the
CommandKeyParser.execute wrapper and the PassthroughKeyParser key
handling (handle, clear_keystring), together with the parts of the
external collaborators that the handling logic observes (the inherited
chain matcher, the key utilities, the focus and event-posting service).
-/

namespace Keyparser

/-- MatchResult: NoMatch, PartialMatch and ExactMatch, mirroring the
three QKeySequence.SequenceMatch values used by the source. -/
inductive Match where
  | NoMatch
  | PartialMatch
  | ExactMatch
deriving DecidableEq, Repr

/-- A key event as delivered by the toolkit to handle: a key code and a
modifier bitmask. -/
structure KeyEvent where
  key : Nat
  modifiers : Nat
deriving DecidableEq, Repr

/-- One entry of a KeySequence: the key code and modifiers of one typed
key, as stored by keyutils.KeySequence. -/
structure KeyInfo where
  key : Nat
  modifiers : Nat
deriving DecidableEq, Repr

/-- Building the stored KeyInfo from an incoming event, as
KeySequence.append_event does with KeyInfo.from_event. -/
def KeyInfo.from_event (e : KeyEvent) : KeyInfo :=
  { key := e.key, modifiers := e.modifiers }

/-- Qt key code for the Shift key. -/
def Key_Shift : Nat := 16777248
/-- Qt key code for the Control key. -/
def Key_Control : Nat := 16777249
/-- Qt key code for the Meta key. -/
def Key_Meta : Nat := 16777250
/-- Qt key code for the Alt key. -/
def Key_Alt : Nat := 16777251
/-- Qt key code for the Mode_switch key. -/
def Key_Mode_switch : Nat := 16781694

/-- Modelled from the spec: keyutils.is_modifier_key (the keyutils
module is not among the included sources). It reports whether a key
code is a pure modifier key such as Shift, Control, Alt or Meta. -/
def is_modifier_key (key : Nat) : Bool :=
  key == Key_Shift || key == Key_Control || key == Key_Meta ||
    key == Key_Alt || key == Key_Mode_switch

/-- The kind of a synthesized key event: QEvent.KeyPress or
QEvent.KeyRelease. -/
inductive EventType where
  | KeyPress
  | KeyRelease
deriving DecidableEq, Repr

/-- A synthesized key event built by KeyInfo.to_event: the event kind
plus the key data of the KeyInfo it came from. -/
structure SynthEvent where
  etype : EventType
  key : Nat
  modifiers : Nat
deriving DecidableEq, Repr

/-- KeyInfo.to_event: synthesize a key event of the given kind carrying
this KeyInfo. -/
def KeyInfo.to_event (ki : KeyInfo) (t : EventType) : SynthEvent :=
  { etype := t, key := ki.key, modifiers := ki.modifiers }

/-- One call to QApplication.postEvent: the target window (a window
handle modelled as a number) and the synthesized event posted to it. -/
structure Posted where
  window : Nat
  event : SynthEvent
deriving DecidableEq, Repr

/-- The mutable per-instance state a PassthroughKeyParser observes and
updates while handling keys: its own buffered original sequence and
ignore flag, plus the inherited chain buffer of the base matcher. -/
structure PassthroughState where
  orig_sequence : List KeyInfo
  base_sequence : List KeyInfo
  ignore_next_key : Bool
deriving DecidableEq, Repr

/-- Modelled from the spec: BaseKeyParser.clear_keystring (the base
class lives in basekeyparser.py, not among the included sources). The
inherited chain reset empties the base matcher's own chain buffer. -/
def BaseKeyParser.clear_keystring (st : PassthroughState) : PassthroughState :=
  { st with base_sequence := [] }

/-- PassthroughKeyParser.clear_keystring: reset the buffered original
sequence to empty (guarded, as in the source, by a non-empty check) and
then run the inherited chain reset. -/
def PassthroughKeyParser.clear_keystring (st : PassthroughState) : PassthroughState :=
  BaseKeyParser.clear_keystring
    (if st.orig_sequence.isEmpty then st else { st with orig_sequence := [] })

/-- Modelled from the spec: BaseKeyParser.handle (basekeyparser.py is
not among the included sources). The inherited trie matcher appends the
event to its chain buffer and classifies the resulting chain; the
classification itself is abstracted as the verdict oracle. On a dry run
nothing is committed and the verdict is returned. On a real pass the
new chain is committed, and on chain completion (ExactMatch) or
mismatch (NoMatch) the matcher resets the chain through
self.clear_keystring, which dynamic dispatch resolves to the
PassthroughKeyParser override. -/
def BaseKeyParser.handle (verdict : List KeyInfo → Match)
    (st : PassthroughState) (e : KeyEvent) (dry_run : Bool) :
    Match × PassthroughState :=
  let sequence := st.base_sequence ++ [KeyInfo.from_event e]
  let m := verdict sequence
  if dry_run then (m, st)
  else
    let st1 : PassthroughState := { st with base_sequence := sequence }
    match m with
    | Match.PartialMatch => (m, st1)
    | _ => (m, PassthroughKeyParser.clear_keystring st1)

/-- The observable outcome of one call to PassthroughKeyParser.handle:
the state after the call, the events posted to the toolkit queue during
the call, and the returned Match value. -/
structure HandleResult where
  state : PassthroughState
  posted : List Posted
  result : Match
deriving DecidableEq, Repr

/-- PassthroughKeyParser.handle. Parameters beyond the source method
arguments: the verdict oracle standing for the inherited trie lookup,
and the focused window as reported by QApplication.focusWindow. -/
def PassthroughKeyParser.handle (verdict : List KeyInfo → Match)
    (focusWindow : Option Nat) (st : PassthroughState)
    (e : KeyEvent) (dry_run : Bool) : HandleResult :=
  if is_modifier_key e.key || st.ignore_next_key then
    { state := { st with ignore_next_key := st.ignore_next_key && dry_run }
      posted := []
      result := Match.NoMatch }
  else
    let orig_sequence := st.orig_sequence ++ [KeyInfo.from_event e]
    let p := BaseKeyParser.handle verdict st e dry_run
    let m := p.1
    let st1 := p.2
    let st2 := if !dry_run && m == Match.PartialMatch
               then { st1 with orig_sequence := orig_sequence } else st1
    if dry_run || orig_sequence.length == 1 || m != Match.NoMatch then
      { state := st2, posted := [], result := m }
    else
      match focusWindow with
      | none => { state := st2, posted := [], result := m }
      | some window =>
        { state := { st2 with ignore_next_key := true }
          posted := orig_sequence.flatMap (fun ki =>
            [{ window := window, event := ki.to_event EventType.KeyPress },
             { window := window, event := ki.to_event EventType.KeyRelease }])
          result := Match.ExactMatch }

/-- What the command runner does on one invocation: succeed, fail with
a command execution error (cmdexc.Error) carrying a display text, or
raise some other exception. -/
inductive RunOutcome where
  | success
  | cmdexcError (text : String)
  | otherException (text : String)
deriving DecidableEq, Repr

/-- The diagnostic trace captured by traceback.format_exc at the point
where execute handles a command error. -/
def format_exc : String := "Traceback (most recent call last):"

/-- The observable outcome of one call to CommandKeyParser.execute: the
message.error calls it made (text and diagnostic trace of each) and the
exception it let propagate, if any. -/
structure ExecResult where
  errorMessages : List (String × String)
  raised : Option String
deriving DecidableEq, Repr

/-- CommandKeyParser.execute: run the command through the command
runner; a cmdexc.Error is caught and reported through message.error
with its text and a diagnostic trace, any other exception propagates. -/
def CommandKeyParser.execute (run : String → Option Nat → RunOutcome)
    (cmdstr : String) (count : Option Nat) : ExecResult :=
  match run cmdstr count with
  | RunOutcome.success => { errorMessages := [], raised := none }
  | RunOutcome.cmdexcError text =>
      { errorMessages := [(text, format_exc)], raised := none }
  | RunOutcome.otherException text =>
      { errorMessages := [], raised := some text }

/-- The state after one call to handle, discarding posted events and
the returned Match. -/
def handleState (verdict : List KeyInfo → Match) (focusWindow : Option Nat)
    (st : PassthroughState) (e : KeyEvent) (dry_run : Bool) : PassthroughState :=
  (PassthroughKeyParser.handle verdict focusWindow st e dry_run).state

/-- The state after a sequence of dry-run calls to handle, one per
event in the list, in order. -/
def dryRunSteps (verdict : List KeyInfo → Match) (focusWindow : Option Nat)
    (st : PassthroughState) (es : List KeyEvent) : PassthroughState :=
  es.foldl (fun s e => handleState verdict focusWindow s e true) st

/-- Helper: a dry-run call to handle leaves the whole parser state
unchanged. -/
theorem handle_dry_run_state_eq (verdict : List KeyInfo → Match)
    (fw : Option Nat) (st : PassthroughState) (e : KeyEvent) :
    (PassthroughKeyParser.handle verdict fw st e true).state = st := by
  unfold PassthroughKeyParser.handle BaseKeyParser.handle
  by_cases h : (is_modifier_key e.key || st.ignore_next_key) = true
  · simp [h]
  · simp [h]

/-- Helper: a dry-run call to handle posts no events. -/
theorem handle_dry_run_posted_nil (verdict : List KeyInfo → Match)
    (fw : Option Nat) (st : PassthroughState) (e : KeyEvent) :
    (PassthroughKeyParser.handle verdict fw st e true).posted = [] := by
  unfold PassthroughKeyParser.handle BaseKeyParser.handle
  by_cases h : (is_modifier_key e.key || st.ignore_next_key) = true
  · simp [h]
  · simp [h]

/-- Claim C4: for every call to handle with dry_run set, regardless of
the event and of the result returned, the buffered original sequence
and the ignore-next-key flag have the same values after the call as
before it, and no events are posted. -/
theorem dry_run_no_side_effects (verdict : List KeyInfo → Match)
    (fw : Option Nat) (st : PassthroughState) (e : KeyEvent) :
    (PassthroughKeyParser.handle verdict fw st e true).state.orig_sequence =
      st.orig_sequence ∧
    (PassthroughKeyParser.handle verdict fw st e true).state.ignore_next_key =
      st.ignore_next_key ∧
    (PassthroughKeyParser.handle verdict fw st e true).posted = [] := by
  rw [handle_dry_run_state_eq, handle_dry_run_posted_nil]
  exact ⟨rfl, rfl, rfl⟩

/-- Helper: clear_keystring always leaves the buffered original
sequence empty. -/
theorem clear_keystring_orig_nil (st : PassthroughState) :
    (PassthroughKeyParser.clear_keystring st).orig_sequence = [] := by
  unfold PassthroughKeyParser.clear_keystring BaseKeyParser.clear_keystring
  by_cases h : st.orig_sequence.isEmpty
  · simp_all [List.isEmpty_iff]
  · simp_all

/-- Claim C9: after a call to clear_keystring the buffered original
sequence is empty, and calling it again on the result leaves it empty
(the operation is idempotent with respect to the buffer). -/
theorem clear_keystring_empties (st : PassthroughState) :
    (PassthroughKeyParser.clear_keystring st).orig_sequence = [] ∧
    (PassthroughKeyParser.clear_keystring
      (PassthroughKeyParser.clear_keystring st)).orig_sequence = [] :=
  ⟨clear_keystring_orig_nil st, clear_keystring_orig_nil _⟩

/-- Claim C5: if the command runner fails with a command execution
error, execute does not let the error propagate, reports it exactly
once through message.error with the error text and a diagnostic trace,
and returns normally; if the runner succeeds, execute returns normally
with no message displayed. -/
theorem execute_error_handling (run : String → Option Nat → RunOutcome)
    (cmdstr : String) (count : Option Nat) :
    (∀ t, run cmdstr count = RunOutcome.cmdexcError t →
      CommandKeyParser.execute run cmdstr count =
        { errorMessages := [(t, format_exc)], raised := none }) ∧
    (run cmdstr count = RunOutcome.success →
      CommandKeyParser.execute run cmdstr count =
        { errorMessages := [], raised := none }) := by
  constructor
  · intro t h
    unfold CommandKeyParser.execute
    rw [h]
  · intro h
    unfold CommandKeyParser.execute
    rw [h]

/-- Witness for C5 at a concrete runner that fails with a command error
and one that succeeds. -/
theorem execute_error_handling_witness :
    CommandKeyParser.execute (fun _ _ => RunOutcome.cmdexcError "bad command")
      "tab-close" none =
      { errorMessages := [("bad command", format_exc)], raised := none } ∧
    CommandKeyParser.execute (fun _ _ => RunOutcome.success) "tab-close" none =
      { errorMessages := [], raised := none } :=
  ⟨(execute_error_handling (fun _ _ => RunOutcome.cmdexcError "bad command")
      "tab-close" none).1 "bad command" rfl,
   (execute_error_handling (fun _ _ => RunOutcome.success)
      "tab-close" none).2 rfl⟩

/-- Claim C10: execute catches only the command error type of the
runner; any other exception raised by the runner propagates to the
caller of execute, with no error message displayed. -/
theorem execute_other_exception_propagates
    (run : String → Option Nat → RunOutcome) (cmdstr : String)
    (count : Option Nat) (t : String)
    (h : run cmdstr count = RunOutcome.otherException t) :
    (CommandKeyParser.execute run cmdstr count).raised = some t ∧
    (CommandKeyParser.execute run cmdstr count).errorMessages = [] := by
  unfold CommandKeyParser.execute
  rw [h]
  exact ⟨rfl, rfl⟩

/-- Witness for C10 at a concrete runner that raises a non-command
exception. -/
theorem execute_other_exception_propagates_witness :
    (CommandKeyParser.execute (fun _ _ => RunOutcome.otherException "TypeError")
      "tab-close" none).raised = some "TypeError" ∧
    (CommandKeyParser.execute (fun _ _ => RunOutcome.otherException "TypeError")
      "tab-close" none).errorMessages = [] :=
  execute_other_exception_propagates
    (fun _ _ => RunOutcome.otherException "TypeError") "tab-close" none
    "TypeError" rfl

/-- Claim C6: whenever the event is a pure modifier key or the
ignore-next-key flag is set, handle returns NoMatch immediately without
delegating to the base matcher (neither chain buffer changes) and posts
no events. -/
theorem modifier_or_ignore_returns_NoMatch (verdict : List KeyInfo → Match)
    (fw : Option Nat) (st : PassthroughState) (e : KeyEvent) (dry_run : Bool)
    (h : is_modifier_key e.key = true ∨ st.ignore_next_key = true) :
    (PassthroughKeyParser.handle verdict fw st e dry_run).result =
      Match.NoMatch ∧
    (PassthroughKeyParser.handle verdict fw st e dry_run).posted = [] ∧
    (PassthroughKeyParser.handle verdict fw st e dry_run).state.orig_sequence =
      st.orig_sequence ∧
    (PassthroughKeyParser.handle verdict fw st e dry_run).state.base_sequence =
      st.base_sequence := by
  have hc : (is_modifier_key e.key || st.ignore_next_key) = true := by
    rcases h with h | h <;> simp [h]
  unfold PassthroughKeyParser.handle
  simp [hc]

/-- Witness for C6 at a concrete modifier key event (Shift). -/
theorem modifier_or_ignore_returns_NoMatch_witness :
    (PassthroughKeyParser.handle (fun _ => Match.PartialMatch) (some 1)
      { orig_sequence := [], base_sequence := [], ignore_next_key := false }
      { key := 16777248, modifiers := 0 } false).result = Match.NoMatch ∧
    (PassthroughKeyParser.handle (fun _ => Match.PartialMatch) (some 1)
      { orig_sequence := [], base_sequence := [], ignore_next_key := false }
      { key := 16777248, modifiers := 0 } false).posted = [] ∧
    (PassthroughKeyParser.handle (fun _ => Match.PartialMatch) (some 1)
      { orig_sequence := [], base_sequence := [], ignore_next_key := false }
      { key := 16777248, modifiers := 0 } false).state.orig_sequence = [] ∧
    (PassthroughKeyParser.handle (fun _ => Match.PartialMatch) (some 1)
      { orig_sequence := [], base_sequence := [], ignore_next_key := false }
      { key := 16777248, modifiers := 0 } false).state.base_sequence = [] :=
  modifier_or_ignore_returns_NoMatch (fun _ => Match.PartialMatch) (some 1)
    { orig_sequence := [], base_sequence := [], ignore_next_key := false }
    { key := 16777248, modifiers := 0 } false (Or.inl (by decide))

/-- Helper: any sequence of dry-run calls leaves the parser state
unchanged. -/
theorem dryRunSteps_state_eq (verdict : List KeyInfo → Match)
    (fw : Option Nat) (st : PassthroughState) (es : List KeyEvent) :
    dryRunSteps verdict fw st es = st := by
  induction es generalizing st with
  | nil => rfl
  | cons e es ih =>
    show dryRunSteps verdict fw (handleState verdict fw st e true) es = st
    rw [handleState, handle_dry_run_state_eq, ih]

/-- Claim C8: a true ignore-next-key flag stays true across any
sequence of dry-run calls and becomes false after the first subsequent
real (non-dry-run) call; moreover a dry-run call never sets a false
flag to true. -/
theorem ignore_flag_temporal (verdict : List KeyInfo → Match)
    (fw : Option Nat) (st : PassthroughState) (es : List KeyEvent)
    (e : KeyEvent) (st2 : PassthroughState) (e2 : KeyEvent)
    (h : st.ignore_next_key = true) (h2 : st2.ignore_next_key = false) :
    (dryRunSteps verdict fw st es).ignore_next_key = true ∧
    (handleState verdict fw (dryRunSteps verdict fw st es) e
      false).ignore_next_key = false ∧
    (handleState verdict fw st2 e2 true).ignore_next_key = false := by
  refine ⟨?_, ?_, ?_⟩
  · rw [dryRunSteps_state_eq]; exact h
  · rw [dryRunSteps_state_eq, handleState]
    unfold PassthroughKeyParser.handle
    simp [h]
  · rw [handleState, handle_dry_run_state_eq]; exact h2

/-- Witness for C8 at a concrete flag-set state, two intervening
dry-run probes and a concrete real call. -/
theorem ignore_flag_temporal_witness :
    (dryRunSteps (fun _ => Match.NoMatch) none
      { orig_sequence := [], base_sequence := [], ignore_next_key := true }
      [{ key := 74, modifiers := 0 }, { key := 75, modifiers := 0 }]).ignore_next_key = true ∧
    (handleState (fun _ => Match.NoMatch) none
      (dryRunSteps (fun _ => Match.NoMatch) none
        { orig_sequence := [], base_sequence := [], ignore_next_key := true }
        [{ key := 74, modifiers := 0 }, { key := 75, modifiers := 0 }])
      { key := 74, modifiers := 0 } false).ignore_next_key = false ∧
    (handleState (fun _ => Match.NoMatch) none
      { orig_sequence := [], base_sequence := [], ignore_next_key := false }
      { key := 74, modifiers := 0 } true).ignore_next_key = false :=
  ignore_flag_temporal (fun _ => Match.NoMatch) none
    { orig_sequence := [], base_sequence := [], ignore_next_key := true }
    [{ key := 74, modifiers := 0 }, { key := 75, modifiers := 0 }]
    { key := 74, modifiers := 0 }
    { orig_sequence := [], base_sequence := [], ignore_next_key := false }
    { key := 74, modifiers := 0 } rfl rfl

/-- Claim C7: a real (non-dry-run) call that reaches the replay branch
(NoMatch from the base matcher on a multi-key chain) while no window is
focused posts no events, leaves the ignore-next-key flag unset, and
returns the NoMatch result unchanged. -/
theorem no_window_no_replay (verdict : List KeyInfo → Match)
    (st : PassthroughState) (e : KeyEvent)
    (hmod : is_modifier_key e.key = false)
    (hign : st.ignore_next_key = false)
    (hbuf : st.orig_sequence ≠ [])
    (hm : verdict (st.base_sequence ++ [KeyInfo.from_event e]) =
      Match.NoMatch) :
    (PassthroughKeyParser.handle verdict none st e false).result =
      Match.NoMatch ∧
    (PassthroughKeyParser.handle verdict none st e false).posted = [] ∧
    (PassthroughKeyParser.handle verdict none st e false).state.ignore_next_key =
      false := by
  unfold PassthroughKeyParser.handle BaseKeyParser.handle
    PassthroughKeyParser.clear_keystring BaseKeyParser.clear_keystring
  simp [hmod, hign, hm, hbuf]

/-- Witness for C7: buffered chain holding one key, a second unbound
key arrives, no focused window. -/
theorem no_window_no_replay_witness :
    (PassthroughKeyParser.handle (fun _ => Match.NoMatch) none
      { orig_sequence := [{ key := 74, modifiers := 0 }],
        base_sequence := [{ key := 74, modifiers := 0 }],
        ignore_next_key := false }
      { key := 75, modifiers := 0 } false).result = Match.NoMatch ∧
    (PassthroughKeyParser.handle (fun _ => Match.NoMatch) none
      { orig_sequence := [{ key := 74, modifiers := 0 }],
        base_sequence := [{ key := 74, modifiers := 0 }],
        ignore_next_key := false }
      { key := 75, modifiers := 0 } false).posted = [] ∧
    (PassthroughKeyParser.handle (fun _ => Match.NoMatch) none
      { orig_sequence := [{ key := 74, modifiers := 0 }],
        base_sequence := [{ key := 74, modifiers := 0 }],
        ignore_next_key := false }
      { key := 75, modifiers := 0 } false).state.ignore_next_key = false :=
  no_window_no_replay (fun _ => Match.NoMatch)
    { orig_sequence := [{ key := 74, modifiers := 0 }],
      base_sequence := [{ key := 74, modifiers := 0 }],
      ignore_next_key := false }
    { key := 75, modifiers := 0 } (by decide) rfl (by decide) rfl

/-- Claim C1: a real call completing a two-key chain (one key already
buffered) that the base matcher classifies as NoMatch, with a window
focused, returns ExactMatch and posts exactly four synthesized events
to that window: press of the first key, release of the first key, press
of the second key, release of the second key. -/
theorem two_key_chain_replay (verdict : List KeyInfo → Match) (w : Nat)
    (st : PassthroughState) (e : KeyEvent) (ki : KeyInfo)
    (hbuf : st.orig_sequence = [ki])
    (hmod : is_modifier_key e.key = false)
    (hign : st.ignore_next_key = false)
    (hm : verdict (st.base_sequence ++ [KeyInfo.from_event e]) =
      Match.NoMatch) :
    (PassthroughKeyParser.handle verdict (some w) st e false).result =
      Match.ExactMatch ∧
    (PassthroughKeyParser.handle verdict (some w) st e false).posted =
      [{ window := w, event := ki.to_event EventType.KeyPress },
       { window := w, event := ki.to_event EventType.KeyRelease },
       { window := w, event := (KeyInfo.from_event e).to_event EventType.KeyPress },
       { window := w, event := (KeyInfo.from_event e).to_event EventType.KeyRelease }] := by
  unfold PassthroughKeyParser.handle BaseKeyParser.handle
  simp [hmod, hign, hm, hbuf]

/-- Witness for C1: chain j then k, both unbound, window 1 focused. -/
theorem two_key_chain_replay_witness :
    (PassthroughKeyParser.handle (fun _ => Match.NoMatch) (some 1)
      { orig_sequence := [{ key := 74, modifiers := 0 }],
        base_sequence := [{ key := 74, modifiers := 0 }],
        ignore_next_key := false }
      { key := 75, modifiers := 0 } false).result = Match.ExactMatch ∧
    (PassthroughKeyParser.handle (fun _ => Match.NoMatch) (some 1)
      { orig_sequence := [{ key := 74, modifiers := 0 }],
        base_sequence := [{ key := 74, modifiers := 0 }],
        ignore_next_key := false }
      { key := 75, modifiers := 0 } false).posted =
      [{ window := 1, event := KeyInfo.to_event { key := 74, modifiers := 0 } EventType.KeyPress },
       { window := 1, event := KeyInfo.to_event { key := 74, modifiers := 0 } EventType.KeyRelease },
       { window := 1, event := KeyInfo.to_event (KeyInfo.from_event { key := 75, modifiers := 0 }) EventType.KeyPress },
       { window := 1, event := KeyInfo.to_event (KeyInfo.from_event { key := 75, modifiers := 0 }) EventType.KeyRelease }] :=
  two_key_chain_replay (fun _ => Match.NoMatch) 1
    { orig_sequence := [{ key := 74, modifiers := 0 }],
      base_sequence := [{ key := 74, modifiers := 0 }],
      ignore_next_key := false }
    { key := 75, modifiers := 0 } { key := 74, modifiers := 0 }
    rfl (by decide) rfl rfl

/-- Counterexample to claim C3 as stated: with the buffered original
sequence holding exactly one event before the call, a real NoMatch call
does not return the base result unchanged with nothing posted — it
replays and returns ExactMatch. -/
theorem single_buffered_event_still_replays :
    ¬((PassthroughKeyParser.handle (fun _ => Match.NoMatch) (some 0)
        { orig_sequence := [{ key := 74, modifiers := 0 }],
          base_sequence := [{ key := 74, modifiers := 0 }],
          ignore_next_key := false }
        { key := 75, modifiers := 0 } false).result = Match.NoMatch ∧
      (PassthroughKeyParser.handle (fun _ => Match.NoMatch) (some 0)
        { orig_sequence := [{ key := 74, modifiers := 0 }],
          base_sequence := [{ key := 74, modifiers := 0 }],
          ignore_next_key := false }
        { key := 75, modifiers := 0 } false).posted = []) := by
  decide

/-- Claim C3 amended: for a real call with a non-modifier key and the
ignore flag unset, if the buffered original sequence was empty before
this event — so the chain including this event holds exactly one
event — handle returns the base matcher result as-is and posts no
events; in particular a one-key chain with no binding yields the base
NoMatch with no replay. -/
theorem empty_buffer_no_replay (verdict : List KeyInfo → Match)
    (fw : Option Nat) (st : PassthroughState) (e : KeyEvent)
    (hmod : is_modifier_key e.key = false)
    (hign : st.ignore_next_key = false)
    (hbuf : st.orig_sequence = []) :
    (PassthroughKeyParser.handle verdict fw st e false).result =
      verdict (st.base_sequence ++ [KeyInfo.from_event e]) ∧
    (PassthroughKeyParser.handle verdict fw st e false).posted = [] := by
  unfold PassthroughKeyParser.handle BaseKeyParser.handle
  simp [hmod, hign, hbuf]
  split <;> rfl

/-- Witness for the amended C3: single unbound key j on an empty
buffer, window focused, base verdict NoMatch returned unchanged. -/
theorem empty_buffer_no_replay_witness :
    (PassthroughKeyParser.handle (fun _ => Match.NoMatch) (some 1)
      { orig_sequence := [], base_sequence := [], ignore_next_key := false }
      { key := 74, modifiers := 0 } false).result =
      (fun _ => Match.NoMatch)
        (PassthroughState.base_sequence
          { orig_sequence := [], base_sequence := [], ignore_next_key := false } ++
         [KeyInfo.from_event { key := 74, modifiers := 0 }]) ∧
    (PassthroughKeyParser.handle (fun _ => Match.NoMatch) (some 1)
      { orig_sequence := [], base_sequence := [], ignore_next_key := false }
      { key := 74, modifiers := 0 } false).posted = [] :=
  empty_buffer_no_replay (fun _ => Match.NoMatch) (some 1)
    { orig_sequence := [], base_sequence := [], ignore_next_key := false }
    { key := 74, modifiers := 0 } (by decide) rfl rfl

/-- Helper: a real pass whose base verdict is PartialMatch commits the
appended chain as the new buffered original sequence and posts
nothing. -/
theorem handle_real_partial_orig (verdict : List KeyInfo → Match)
    (fw : Option Nat) (st : PassthroughState) (e : KeyEvent)
    (hmod : is_modifier_key e.key = false)
    (hign : st.ignore_next_key = false)
    (hm : verdict (st.base_sequence ++ [KeyInfo.from_event e]) =
      Match.PartialMatch) :
    (PassthroughKeyParser.handle verdict fw st e false).state.orig_sequence =
      st.orig_sequence ++ [KeyInfo.from_event e] ∧
    (PassthroughKeyParser.handle verdict fw st e false).posted = [] := by
  unfold PassthroughKeyParser.handle BaseKeyParser.handle
  simp [hmod, hign, hm]

/-- Helper: a real pass whose base verdict is not PartialMatch leaves
the buffered original sequence empty afterwards, through the chain
reset dispatched from the base matcher. -/
theorem handle_real_nonpartial_orig (verdict : List KeyInfo → Match)
    (fw : Option Nat) (st : PassthroughState) (e : KeyEvent)
    (hmod : is_modifier_key e.key = false)
    (hign : st.ignore_next_key = false)
    (hm : verdict (st.base_sequence ++ [KeyInfo.from_event e]) ≠
      Match.PartialMatch) :
    (PassthroughKeyParser.handle verdict fw st e false).state.orig_sequence =
      [] := by
  unfold PassthroughKeyParser.handle BaseKeyParser.handle
  cases hv : verdict (st.base_sequence ++ [KeyInfo.from_event e]) with
  | PartialMatch => exact absurd hv hm
  | NoMatch =>
    simp [hmod, hign, hv, clear_keystring_orig_nil]
    split
    · simp [clear_keystring_orig_nil]
    · split <;> simp [clear_keystring_orig_nil]
  | ExactMatch =>
    simp [hmod, hign, hv, clear_keystring_orig_nil]

/-- Claim C2: the buffered original sequence grows (by the current
event) only on a real, non-dry-run pass whose base verdict is
PartialMatch — otherwise it is unchanged or reset to empty — and any
call that posts replay events leaves the buffered original sequence
empty. -/
theorem orig_sequence_growth_invariant (verdict : List KeyInfo → Match)
    (fw : Option Nat) (st : PassthroughState) (e : KeyEvent) (dry : Bool) :
    ((PassthroughKeyParser.handle verdict fw st e dry).state.orig_sequence =
        st.orig_sequence ∨
     (PassthroughKeyParser.handle verdict fw st e dry).state.orig_sequence =
        [] ∨
     (dry = false ∧
      verdict (st.base_sequence ++ [KeyInfo.from_event e]) =
        Match.PartialMatch ∧
      (PassthroughKeyParser.handle verdict fw st e dry).state.orig_sequence =
        st.orig_sequence ++ [KeyInfo.from_event e])) ∧
    ((PassthroughKeyParser.handle verdict fw st e dry).posted ≠ [] →
      (PassthroughKeyParser.handle verdict fw st e dry).state.orig_sequence =
        []) := by
  by_cases hmi : (is_modifier_key e.key || st.ignore_next_key) = true
  · have hstate : (PassthroughKeyParser.handle verdict fw st e
        dry).state.orig_sequence = st.orig_sequence := by
      unfold PassthroughKeyParser.handle; simp [hmi]
    have hposted : (PassthroughKeyParser.handle verdict fw st e dry).posted =
        [] := by
      unfold PassthroughKeyParser.handle; simp [hmi]
    exact ⟨Or.inl hstate, fun h => absurd hposted h⟩
  · simp only [Bool.or_eq_true, not_or, Bool.not_eq_true] at hmi
    obtain ⟨hmod, hign⟩ := hmi
    cases dry with
    | true =>
      refine ⟨Or.inl ?_, fun h =>
        absurd (handle_dry_run_posted_nil verdict fw st e) h⟩
      rw [handle_dry_run_state_eq]
    | false =>
      cases hv : verdict (st.base_sequence ++ [KeyInfo.from_event e]) with
      | PartialMatch =>
        obtain ⟨h1, h2⟩ :=
          handle_real_partial_orig verdict fw st e hmod hign hv
        exact ⟨Or.inr (Or.inr ⟨rfl, rfl, h1⟩), fun h => absurd h2 h⟩
      | NoMatch =>
        have horig := handle_real_nonpartial_orig verdict fw st e hmod hign
          (by rw [hv]; exact fun h => Match.noConfusion h)
        exact ⟨Or.inr (Or.inl horig), fun _ => horig⟩
      | ExactMatch =>
        have horig := handle_real_nonpartial_orig verdict fw st e hmod hign
          (by rw [hv]; exact fun h => Match.noConfusion h)
        exact ⟨Or.inr (Or.inl horig), fun _ => horig⟩

/-- Witness for C2 at a concrete real call that triggers a replay: the
buffered original sequence is empty afterwards. -/
theorem orig_sequence_growth_invariant_witness :
    ((PassthroughKeyParser.handle (fun _ => Match.NoMatch) (some 1)
        { orig_sequence := [{ key := 74, modifiers := 0 }],
          base_sequence := [{ key := 74, modifiers := 0 }],
          ignore_next_key := false }
        { key := 75, modifiers := 0 } false).state.orig_sequence =
        PassthroughState.orig_sequence
          { orig_sequence := [{ key := 74, modifiers := 0 }],
            base_sequence := [{ key := 74, modifiers := 0 }],
            ignore_next_key := false } ∨
     (PassthroughKeyParser.handle (fun _ => Match.NoMatch) (some 1)
        { orig_sequence := [{ key := 74, modifiers := 0 }],
          base_sequence := [{ key := 74, modifiers := 0 }],
          ignore_next_key := false }
        { key := 75, modifiers := 0 } false).state.orig_sequence = [] ∨
     (false = false ∧
      (fun _ => Match.NoMatch)
        (PassthroughState.base_sequence
          { orig_sequence := [{ key := 74, modifiers := 0 }],
            base_sequence := [{ key := 74, modifiers := 0 }],
            ignore_next_key := false } ++
         [KeyInfo.from_event { key := 75, modifiers := 0 }]) =
        Match.PartialMatch ∧
      (PassthroughKeyParser.handle (fun _ => Match.NoMatch) (some 1)
        { orig_sequence := [{ key := 74, modifiers := 0 }],
          base_sequence := [{ key := 74, modifiers := 0 }],
          ignore_next_key := false }
        { key := 75, modifiers := 0 } false).state.orig_sequence =
        PassthroughState.orig_sequence
          { orig_sequence := [{ key := 74, modifiers := 0 }],
            base_sequence := [{ key := 74, modifiers := 0 }],
            ignore_next_key := false } ++
          [KeyInfo.from_event { key := 75, modifiers := 0 }])) ∧
    ((PassthroughKeyParser.handle (fun _ => Match.NoMatch) (some 1)
        { orig_sequence := [{ key := 74, modifiers := 0 }],
          base_sequence := [{ key := 74, modifiers := 0 }],
          ignore_next_key := false }
        { key := 75, modifiers := 0 } false).posted ≠ [] →
      (PassthroughKeyParser.handle (fun _ => Match.NoMatch) (some 1)
        { orig_sequence := [{ key := 74, modifiers := 0 }],
          base_sequence := [{ key := 74, modifiers := 0 }],
          ignore_next_key := false }
        { key := 75, modifiers := 0 } false).state.orig_sequence = []) :=
  orig_sequence_growth_invariant (fun _ => Match.NoMatch) (some 1)
    { orig_sequence := [{ key := 74, modifiers := 0 }],
      base_sequence := [{ key := 74, modifiers := 0 }],
      ignore_next_key := false }
    { key := 75, modifiers := 0 } false

end Keyparser
